import Mathlib

/-
Verification development for the provisioner daemon
(provisionerd/provisionerd.go).

The daemon pulls jobs from a control plane, unpacks each job's tar source
archive into a work directory, drives a provisioner subprocess, and
finalises every job with a single CompleteJob or CancelJob RPC.  This file
embeds, as executable Lean definitions translated from the Go source:

  * the path arithmetic of the archive extractor (filepath.Clean,
    filepath.Join, strings.HasPrefix and the per-entry mode computation of
    archive/tar's FileInfo().Mode() and os's syscallMode), and the
    extraction loop of runJob (provisionerd.go lines 225-279);
  * the sequential body of runJob: provisioner-registry lookup, extraction,
    dispatch and the stream pumps of runProjectImport and
    runWorkspaceProvision (lines 192-433), with the provisioner's stream
    modelled as a script of messages;
  * the job-slot bookkeeping of acquireJob (lines 150-186), cancelActiveJob
    (lines 435-458) and closeWithError (lines 476-505) as functions on an
    explicit daemon state;
  * a small interleaving machine for two concurrent executions of
    cancelActiveJob (its cancelled guard is an atomic Load followed by a
    separate atomic Store, lines 440-443, not a compare-and-swap);
  * a small interleaving machine for the cleanup sentinel goroutine of
    runJob (lines 193-210).

Modelling assumptions, stated once here: archives are well formed (a
malformed archive only makes reader.Next cancel with a different error
string, lines 231-234); file-system writes and mkdir
succeed (the extractor's I/O error branches only re-label an error string);
the work-directory wipe of the cleanup sentinel may fail and that branch IS
modelled, because the sentinel reacts to it by skipping its remaining
steps; RPC sends on the update stream and CompleteJob succeed; wall-clock
timestamps carried by forwarded logs are not modelled; Go %q quoting is
modelled as plain double quoting (the names involved contain no characters
that %q would escape).
-/

set_option maxRecDepth 4000

namespace Provisionerd

/-! ## Go string and path primitives

filepath.Clean and filepath.Join for slash-separated paths, and
strings.HasPrefix, exactly as the extractor uses them at
provisionerd.go lines 236-237. -/

/-- Splits a character list at every slash, keeping empty components
(Go's strings.Split on "/"). -/
def splitSlashAux : List Char → List Char → List String
  | [], cur => [String.mk cur.reverse]
  | c :: rest, cur =>
    if c = '/' then String.mk cur.reverse :: splitSlashAux rest []
    else splitSlashAux rest (c :: cur)

/-- The slash-separated components of a path string. -/
def splitSlash (s : String) : List String :=
  splitSlashAux s.data []

/-- Whether the first character list is a prefix of the second. -/
def leadMatch : List Char → List Char → Bool
  | [], _ => true
  | _ :: _, [] => false
  | a :: as, b :: bs => a = b && leadMatch as bs

/-- Go strings.HasPrefix s pre: pre is a leading substring of s. -/
def strStartsWith (s pre : String) : Bool :=
  leadMatch pre.data s.data

/-- The component pass of Go filepath.Clean: drops empty and "."
components, lets ".." pop a preceding component, keeps ".." at the start
of a relative path and drops it at the root of an absolute one.  The
accumulator holds the output components in reverse. -/
def cleanAux (rooted : Bool) : List String → List String → List String
  | acc, [] => acc
  | acc, c :: rest =>
    if c = "" ∨ c = "." then cleanAux rooted acc rest
    else if c = ".." then
      match acc with
      | [] => cleanAux rooted (if rooted then [] else [".."]) rest
      | a :: as =>
        if a = ".." then cleanAux rooted (".." :: a :: as) rest
        else cleanAux rooted as rest
    else cleanAux rooted (c :: acc) rest

/-- Joins path components with single slashes. -/
def joinComps : List String → String
  | [] => ""
  | [c] => c
  | c :: rest => c ++ "/" ++ joinComps rest

/-- Go filepath.Clean for slash-separated paths: the shortest lexical
equivalent of the argument, "." for the empty path. -/
def goClean (path : String) : String :=
  if path = "" then "."
  else
    let rooted := strStartsWith path "/"
    let body := joinComps (cleanAux rooted [] (splitSlash path)).reverse
    if body = "" then (if rooted then "/" else ".")
    else if rooted then "/" ++ body else body

/-- Go filepath.Join of two elements: the non-empty elements joined with a
slash, then Cleaned (so Join already returns a Clean path). -/
def goJoin (a b : String) : String :=
  if a ≠ "" then goClean (a ++ "/" ++ b)
  else if b ≠ "" then goClean b
  else ""

/-- Go %q of a plain name: the name wrapped in double quotes (the daemon
only formats provisioner kinds and type names, which contain no characters
%q would escape). -/
def goQuote (s : String) : String := "\"" ++ s ++ "\""

/-- The spec's notion that a path lies under a directory root: after Clean,
the path is the root itself or extends it past a slash.  This is the
property the claim asserts of extracted paths; the code checks only
strStartsWith. -/
def pathLiesUnder (root p : String) : Bool :=
  p = goClean root || strStartsWith p (goClean root ++ "/")

/-! ## Tar entries and the extractor

The extraction loop of runJob, provisionerd.go lines 225-279.  A tar entry
carries its header name, type flag, recorded permission mode and data
size.  archive/tar's FileInfo().Mode() turns the recorded mode into an
os.FileMode: permission bits, the setuid/setgid/sticky bits, and a
file-type bit chosen by the type flag (ModeDir = 1 <<< 31 for directory
entries).  os.OpenFile and os.MkdirAll hand the kernel syscallMode of that
value: its low permission bits plus setuid/setgid/sticky mapped back. -/

/-- Tar header type flags the daemon can meet.  The extractor creates
directories and regular files and silently skips every other flag. -/
inductive TypeFlag
  | reg
  | dir
  | symlink
  | hardlink
  | charDev
  | blockDev
  | fifo
deriving DecidableEq

/-- One tar archive entry: header name, type flag, the mode recorded in the
header (permission bits), and the byte length of the entry data. -/
structure TarEntry where
  name : String
  typeflag : TypeFlag
  mode : Nat
  size : Nat
deriving DecidableEq

/-- os.ModeSetuid. -/
def modeSetuid : Nat := 1 <<< 23
/-- os.ModeSetgid. -/
def modeSetgid : Nat := 1 <<< 22
/-- os.ModeSticky. -/
def modeSticky : Nat := 1 <<< 20
/-- os.ModeDir: the directory type bit of an os.FileMode. -/
def modeDir : Nat := 1 <<< 31
/-- os.ModeSymlink. -/
def modeSymlink : Nat := 1 <<< 27
/-- os.ModeDevice. -/
def modeDevice : Nat := 1 <<< 26
/-- os.ModeCharDevice. -/
def modeCharDevice : Nat := 1 <<< 21
/-- os.ModeNamedPipe. -/
def modeNamedPipe : Nat := 1 <<< 25

/-- The file-type bit archive/tar's headerFileInfo.Mode() adds for each
type flag. -/
def typeflagModeBits : TypeFlag → Nat
  | .symlink => modeSymlink
  | .charDev => modeDevice ||| modeCharDevice
  | .blockDev => modeDevice
  | .dir => modeDir
  | .fifo => modeNamedPipe
  | _ => 0

/-- archive/tar headerFileInfo.Mode(): permission bits of the recorded
mode, setuid/setgid/sticky translated to their os.FileMode positions, and
the type-flag bit. -/
def fiMode (mode : Nat) (tf : TypeFlag) : Nat :=
  (mode &&& 0o777)
  ||| (if mode &&& 0o4000 ≠ 0 then modeSetuid else 0)
  ||| (if mode &&& 0o2000 ≠ 0 then modeSetgid else 0)
  ||| (if mode &&& 0o1000 ≠ 0 then modeSticky else 0)
  ||| typeflagModeBits tf

/-- header.FileInfo().Mode() of an entry. -/
def fileInfoMode (e : TarEntry) : Nat := fiMode e.mode e.typeflag

/-- The mode runJob passes to os.MkdirAll / os.OpenFile for an entry,
provisionerd.go lines 241-244: header.FileInfo().Mode(), replaced by 0600
when that value is zero. -/
def entryDiskMode (e : TarEntry) : Nat :=
  if fileInfoMode e = 0 then 0o600 else fileInfoMode e

/-- os's syscallMode: what of an os.FileMode actually reaches the kernel on
creation — the permission bits, with setuid/setgid/sticky mapped back to
their Unix positions.  File-type bits such as ModeDir contribute nothing. -/
def syscallPerm (m : Nat) : Nat :=
  (m &&& 0o777)
  ||| (if m &&& modeSetuid ≠ 0 then 0o4000 else 0)
  ||| (if m &&& modeSetgid ≠ 0 then 0o2000 else 0)
  ||| (if m &&& modeSticky ≠ 0 then 0o1000 else 0)

/-- The per-file copy cap of runJob: (1 <<< 20) * 10 bytes
(provisionerd.go line 260). -/
def tenMiB : Nat := (1 <<< 20) * 10

/-- A file-system effect of extraction: os.MkdirAll for a directory entry,
or a created regular file together with the byte count io.CopyN wrote. -/
inductive FsEntry
  | mkdirAll (path : String) (mode : Nat)
  | writeFile (path : String) (mode : Nat) (bytes : Nat)
deriving DecidableEq

/-- The outcome of the extraction loop: the effects performed, and on
failure the message handed to cancelActiveJob. -/
inductive ExtractResult
  | ok (written : List FsEntry)
  | cancelled (written : List FsEntry) (msg : String)
deriving DecidableEq

/-- The effects of one accepted entry, provisionerd.go lines 245-278: a
directory entry becomes MkdirAll, a regular entry becomes a created file
whose written size io.CopyN caps at tenMiB (io.CopyN stops after its
limit; hitting EOF earlier is mapped to no error at lines 261-263), every
other type flag falls out of the switch and is skipped. -/
def entryActions (workDir : String) (e : TarEntry) : List FsEntry :=
  match e.typeflag with
  | .dir => [.mkdirAll (goJoin workDir e.name) (entryDiskMode e)]
  | .reg => [.writeFile (goJoin workDir e.name) (entryDiskMode e) (min e.size tenMiB)]
  | _ => []

/-- The extraction loop of runJob, provisionerd.go lines 226-279.  For each
entry the candidate path is filepath.Join(workDir, name) — Join Cleans —
and the entry is rejected, cancelling the job, unless
strings.HasPrefix(path, filepath.Clean(workDir)) holds (lines 236-240).
An accepted entry's effects are performed and the loop continues. -/
def extract (workDir : String) : List TarEntry → ExtractResult
  | [] => .ok []
  | e :: rest =>
    if strStartsWith (goJoin workDir e.name) (goClean workDir) then
      match extract workDir rest with
      | .ok w => .ok (entryActions workDir e ++ w)
      | .cancelled w m => .cancelled (entryActions workDir e ++ w) m
    else
      .cancelled [] "tar attempts to target relative upper directory"

/-- The effects an extraction performed, whether or not it was cancelled. -/
def writtenOf : ExtractResult → List FsEntry
  | .ok w => w
  | .cancelled w _ => w

/-- Bytes a file-system effect wrote to a file. -/
def fsBytes : FsEntry → Nat
  | .mkdirAll _ _ => 0
  | .writeFile _ _ b => b

/-- Whether extraction was cancelled. -/
def isCancelledResult : ExtractResult → Bool
  | .ok _ => false
  | .cancelled _ _ => true

/-! ## The job runner

The sequential body of runJob (provisionerd.go lines 192-303) and the
stream pumps of runProjectImport (lines 305-362) and runWorkspaceProvision
(lines 364-433).  A provisioner client is modelled as a stub holding the
script of messages its Parse and Provision streams would deliver; a
script that ends without a Complete makes the next Recv return io.EOF,
which the pump treats as a receive error and cancels the job. -/

/-- A message of a provisioner's Parse response stream: a log, a
completion carrying parameter schemas, or a message of an unexpected type
(carrying the type name reflect would print). -/
inductive ParseMsg
  | log (level : Nat) (output : String)
  | complete (parameterSchemas : List String)
  | invalid (tyName : String)
deriving DecidableEq

/-- A message of a provisioner's Provision response stream: a log, a
completion carrying state and resources, or a message of an unexpected
type. -/
inductive ProvMsg
  | log (level : Nat) (output : String)
  | complete (state : List Nat) (resources : List String)
  | invalid (tyName : String)
deriving DecidableEq

/-- The typed payload of a CompleteJob RPC. -/
inductive CompletedPayload
  | projectImport (parameterSchemas : List String)
  | workspaceProvision (state : List Nat) (resources : List String)
deriving DecidableEq

/-- An RPC the daemon sends to the control plane.  updateJob carries one
forwarded log record (level and output) in the field matching the job
kind; completeJob and cancelJob are the two terminal RPCs. -/
inductive DaemonRpc
  | updateJob (jobId : String) (importLogs provisionLogs : List (Nat × String))
  | completeJob (jobId : String) (payload : CompletedPayload)
  | cancelJob (jobId : String) (errMsg : String)
deriving DecidableEq

/-- An observable step of the job runner: an RPC to the control plane, or
the opening of a provisioner Parse or Provision stream. -/
inductive RunEvent
  | rpc (r : DaemonRpc)
  | openParse (directory : String)
  | openProvision (directory : String) (parameterValues : List String) (state : List Nat)
deriving DecidableEq

/-- Whether a runner event opens a provisioner stream. -/
def isOpenEvent : RunEvent → Bool
  | .openParse _ => true
  | .openProvision _ _ _ => true
  | .rpc _ => false

/-- Whether a runner event is a CompleteJob RPC. -/
def isCompleteRpc : RunEvent → Bool
  | .rpc (.completeJob _ _) => true
  | _ => false

/-- Whether a runner event is a CancelJob RPC. -/
def isCancelRpc : RunEvent → Bool
  | .rpc (.cancelJob _ _) => true
  | _ => false

/-- The typed payload of an acquired job: project import, workspace
provision (with its parameter values and state), or a payload kind this
daemon does not know (carrying the type name reflect would print). -/
inductive JobKind
  | projectImport
  | workspaceProvision (parameterValues : List String) (state : List Nat)
  | unknown (tyName : String)
deriving DecidableEq

/-- An AcquiredJob message as the daemon consumes it: job id, provisioner
kind, source archive and typed payload.  An empty jobId means no job was
available. -/
structure AcquiredJob where
  jobId : String
  provisioner : String
  projectSourceArchive : List TarEntry
  kind : JobKind
deriving DecidableEq

/-- A registered provisioner client, modelled by the scripts of messages
its Parse and Provision streams deliver. -/
structure ProvisionerStub where
  parseScript : List ParseMsg
  provisionScript : List ProvMsg
deriving DecidableEq

/-- Lookup in the Provisioners registry (a map from kind to client). -/
def lookupStub : List (String × ProvisionerStub) → String → Option ProvisionerStub
  | [], _ => none
  | (k, v) :: rest, key => if k = key then some v else lookupStub rest key

/-- The error string cancelActiveJob sends, provisionerd.go line 451:
"provisioner daemon: " prefixed to the cause. -/
def cancelErr (msg : String) : String := "provisioner daemon: " ++ msg

/-- The stream pump of runProjectImport, provisionerd.go lines 314-361:
logs are forwarded as JobUpdate sends on the update stream (sends modelled
as succeeding), a Complete triggers one CompleteJob and ends the loop, an
unexpected message type cancels, and stream end before Complete surfaces
as a Recv error (io.EOF) and cancels. -/
def runParsePump (jobId : String) : List ParseMsg → List RunEvent
  | [] => [.rpc (.cancelJob jobId (cancelErr "recv parse source: EOF"))]
  | .log lvl out :: rest =>
    .rpc (.updateJob jobId [(lvl, out)] []) :: runParsePump jobId rest
  | .complete schemas :: _ =>
    [.rpc (.completeJob jobId (.projectImport schemas))]
  | .invalid ty :: _ =>
    [.rpc (.cancelJob jobId
      (cancelErr ("invalid message type " ++ goQuote ty ++ " received from provisioner")))]

/-- The stream pump of runWorkspaceProvision, provisionerd.go lines
376-432, mirror of runParsePump with logs routed to the
workspace-provision field and the completion payload carrying state and
resources. -/
def runProvPump (jobId : String) : List ProvMsg → List RunEvent
  | [] => [.rpc (.cancelJob jobId (cancelErr "recv workspace provision: EOF"))]
  | .log lvl out :: rest =>
    .rpc (.updateJob jobId [] [(lvl, out)]) :: runProvPump jobId rest
  | .complete st res :: _ =>
    [.rpc (.completeJob jobId (.workspaceProvision st res))]
  | .invalid ty :: _ =>
    [.rpc (.cancelJob jobId
      (cancelErr ("invalid message type " ++ goQuote ty ++ " received from provisioner")))]

/-- The sequential body of runJob, provisionerd.go lines 211-303 (the
cleanup sentinel it spawns at lines 193-210 is modelled separately as
cleanupSentinel): look the provisioner kind up in the registry and cancel
with "provisioner %q not registered" when absent (lines 212-216); create
the work directory (modelled as succeeding, lines 218-222); run the
extraction loop and cancel with its message on failure; then dispatch on
the job payload, opening the matching provisioner stream and pumping it,
or cancelling for an unknown payload kind (lines 281-299).  The result is
the extraction's file-system effects and the runner's event trace. -/
def runJob (registry : List (String × ProvisionerStub)) (workDir : String)
    (job : AcquiredJob) : List FsEntry × List RunEvent :=
  match lookupStub registry job.provisioner with
  | none =>
    ([], [.rpc (.cancelJob job.jobId
      (cancelErr ("provisioner " ++ goQuote job.provisioner ++ " not registered")))])
  | some stub =>
    match extract workDir job.projectSourceArchive with
    | .cancelled w msg => (w, [.rpc (.cancelJob job.jobId (cancelErr msg))])
    | .ok w =>
      match job.kind with
      | .projectImport =>
        (w, .openParse workDir :: runParsePump job.jobId stub.parseScript)
      | .workspaceProvision params st =>
        (w, .openProvision workDir params st :: runProvPump job.jobId stub.provisionScript)
      | .unknown ty =>
        (w, [.rpc (.cancelJob job.jobId
          (cancelErr ("unknown job type " ++ goQuote ty ++
            "; ensure your provisioner daemon is up-to-date")))])

/-! ## The job slot

The daemon's job-slot bookkeeping as an explicit state: acquireJob
(provisionerd.go lines 150-186), cancelActiveJob (lines 435-458) and
closeWithError (lines 476-505) become functions from state to state plus
the RPCs they issue.  The context cancel handle and the done channel are
represented by a generation counter (bumped when a fresh one is installed)
plus, for done, a closed flag. -/

/-- The daemon's mutable slot and lifecycle state: the closed channel and
cached close error, the running/cancelled atomics, the acquired-job
pointer, and generation counters standing for the per-job cancel handle
and done channel (doneClosed records whether the current done channel has
been closed). -/
structure DaemonState where
  closed : Bool
  closeErr : Option String
  running : Bool
  cancelled : Bool
  acquiredJob : Option AcquiredJob
  cancelGen : Nat
  doneGen : Nat
  doneClosed : Bool
deriving DecidableEq

/-- The state New builds: nothing acquired, nothing running, not closed. -/
def initState : DaemonState :=
  { closed := false, closeErr := none, running := false, cancelled := false,
    acquiredJob := none, cancelGen := 0, doneGen := 0, doneClosed := false }

/-- The job id cancelActiveJob reads from the slot (p.acquiredJob.JobId). -/
def jobIdOf (s : DaemonState) : String :=
  (s.acquiredJob.map AcquiredJob.jobId).getD ""

/-- acquireJob, provisionerd.go lines 150-186, given the AcquireJob RPC's
outcome: return untouched when a job is already running (lines 153-156);
otherwise store the response message into p.acquiredJob — this assignment
happens before any check of the response (line 158), and a failed RPC
stores nil; return after the assignment on RPC error (lines 159-165), when
the daemon is closed (lines 166-168) or when the JobId is empty (lines
169-172); else install a fresh cancel handle, clear cancelled, set running,
make a fresh done channel and spawn the runner (lines 173-185).  The
returned Bool says whether a runner goroutine was spawned. -/
def acquireJob (s : DaemonState) (resp : Except String AcquiredJob) :
    DaemonState × Bool :=
  if s.running then (s, false)
  else
    match resp with
    | .error _ => ({ s with acquiredJob := none }, false)
    | .ok j =>
      if s.closed then ({ s with acquiredJob := some j }, false)
      else if j.jobId = "" then ({ s with acquiredJob := some j }, false)
      else
        ({ s with
            acquiredJob := some j
            cancelGen := s.cancelGen + 1
            cancelled := false
            running := true
            doneGen := s.doneGen + 1
            doneClosed := false }, true)

/-- cancelActiveJob, provisionerd.go lines 435-458, taken as one atomic
step (the interleaving machine below drops this atomicity): do nothing
unless a job is running (lines 436-439) or when cancelled was already
observed true (lines 440-442); otherwise store cancelled, cancel the job
context and issue one CancelJob RPC carrying "provisioner daemon: "
prefixed to the cause (lines 443-452). -/
def cancelActive (s : DaemonState) (msg : String) : DaemonState × List DaemonRpc :=
  if s.running = false then (s, [])
  else if s.cancelled then (s, [])
  else ({ s with cancelled := true }, [.cancelJob (jobIdOf s) (cancelErr msg)])

/-- The message closeWithError cancels a running job with, provisionerd.go
lines 484-487. -/
def closeErrMsg (e : Option String) : String :=
  match e with
  | none => "provisioner daemon was shutdown gracefully"
  | some t => t

/-- closeWithError, provisionerd.go lines 476-505, as a sequential
function: return the cached close error when already closed (lines
479-481); else cancel a running, not-yet-cancelled job and block on the
done channel (lines 483-492) — the wait is modelled by inlining the
cleanup sentinel's effect, with the work-directory wipe assumed to
succeed: running becomes false and done is closed; then record the close
error, close the closed channel and cancel the daemon context (lines
494-497).  The result is the new state, the returned error and the RPCs
issued. -/
def closeWithError (s : DaemonState) (e : Option String) :
    DaemonState × Option String × List DaemonRpc :=
  if s.closed then (s, s.closeErr, [])
  else
    let step1 :=
      if s.running && !s.cancelled then cancelActive s (closeErrMsg e)
      else (s, ([] : List DaemonRpc))
    let s2 :=
      if step1.1.running then { step1.1 with running := false, doneClosed := true }
      else step1.1
    ({ s2 with closed := true, closeErr := e }, e, step1.2)

/-! ## Two concurrent cancelActiveJob calls

cancelActiveJob can run concurrently in two goroutines with no common
lock: the runner calls it on any fatal step (for instance a stream receive
error, provisionerd.go line 317 or 379) while closeWithError calls it from
the closing thread (line 489, holding only closeMutex).  Its guard at
lines 440-443 is an atomic Load of acquiredJobCancelled followed by a
separate atomic Store — not a compare-and-swap — so both calls can observe
false before either stores true.  The machine below gives each call a
program counter over those atomic steps and runs them under an explicit
schedule. -/

/-- Program counter of one cancelActiveJob execution, one position per
atomic step of provisionerd.go lines 435-452: the isRunningJob check, the
Load of acquiredJobCancelled, the Store (with the job-context cancel), and
the CancelJob RPC. -/
inductive CancelPc
  | checkRunning
  | loadCancelled
  | storeCancelled
  | sendRpc
  | halted
deriving DecidableEq

/-- Shared daemon fields the two calls touch, plus the CancelJob RPCs sent
so far and the two program counters (thread A is the runner's call, thread
B the closer's). -/
structure RaceState where
  running : Bool
  cancelled : Bool
  sent : List String
  pcA : CancelPc
  pcB : CancelPc
deriving DecidableEq

/-- One atomic step of the chosen thread (false = A, true = B) of its
cancelActiveJob execution. -/
def raceStep (jobId : String) (s : RaceState) (t : Bool) : RaceState :=
  let pc := if t then s.pcB else s.pcA
  let next :=
    match pc with
    | .checkRunning => (s, if s.running then CancelPc.loadCancelled else CancelPc.halted)
    | .loadCancelled => (s, if s.cancelled then CancelPc.halted else CancelPc.storeCancelled)
    | .storeCancelled => ({ s with cancelled := true }, CancelPc.sendRpc)
    | .sendRpc => ({ s with sent := s.sent ++ [jobId] }, CancelPc.halted)
    | .halted => (s, CancelPc.halted)
  if t then { next.1 with pcB := next.2 } else { next.1 with pcA := next.2 }

/-- Runs the two cancelActiveJob executions under a schedule (the list of
thread choices). -/
def runRace (jobId : String) (sched : List Bool) (s : RaceState) : RaceState :=
  sched.foldl (raceStep jobId) s

/-- The state both calls start from: a job is running and not yet
cancelled, no CancelJob has been sent, both executions at their first
step. -/
def raceInit : RaceState :=
  { running := true, cancelled := false, sent := [], pcA := .checkRunning,
    pcB := .checkRunning }

/-! ## The cleanup sentinel

The goroutine runJob spawns at provisionerd.go lines 193-210: it blocks
until the daemon's closed channel or the per-job context ends, then wipes
the work directory with os.RemoveAll; if the wipe fails it calls
cancelActiveJob and returns — leaving running true and done unclosed —
otherwise it stores running false and closes done.  The machine below
interleaves the sentinel's steps with the two trigger events under an
explicit schedule. -/

/-- An observable action of the cleanup sentinel. -/
inductive SentinelEvent
  | removeWorkDir
  | cancelActiveCall (msg : String)
  | storeRunningFalse
  | closeDone
deriving DecidableEq

/-- Program counter of the sentinel goroutine. -/
inductive SentinelPc
  | waiting
  | afterWipe
  | afterFlag
  | halted
deriving DecidableEq

/-- A step of the job lifecycle the sentinel machine interleaves: the
daemon's closed channel closing, the per-job context ending, or the
sentinel goroutine taking its next atomic step. -/
inductive LifeStep
  | daemonClose
  | jobCtxEnd
  | sentinel
deriving DecidableEq

/-- State of the sentinel machine: the two trigger flags, the running
atomic and the done channel, the sentinel's program counter and the trace
of its actions. -/
structure SentinelState where
  closedCh : Bool
  ctxDone : Bool
  running : Bool
  doneClosed : Bool
  pc : SentinelPc
  trace : List SentinelEvent
deriving DecidableEq

/-- The message the sentinel cancels the job with when the wipe fails,
provisionerd.go line 202. -/
def wipeErrMsg (workDir err : String) : String :=
  "remove all from " ++ goQuote workDir ++ " directory: " ++ err

/-- One lifecycle step.  wipeErr injects the outcome of os.RemoveAll: none
means the wipe succeeds, some err that it fails with err.  The sentinel
does nothing until a trigger flag is set (the select at lines 194-197);
its wipe, its store of running false and its close of done are separate
steps, in the order of lines 200-209; the failure branch (lines 201-204)
records the cancelActiveJob call and halts. -/
def sentinelStep (wipeErr : Option String) (workDir : String)
    (s : SentinelState) : LifeStep → SentinelState
  | .daemonClose => { s with closedCh := true }
  | .jobCtxEnd => { s with ctxDone := true }
  | .sentinel =>
    match s.pc with
    | .waiting =>
      if s.closedCh || s.ctxDone then
        match wipeErr with
        | some err =>
          { s with
              pc := .halted
              trace := s.trace ++ [.cancelActiveCall (wipeErrMsg workDir err)] }
        | none => { s with pc := .afterWipe, trace := s.trace ++ [.removeWorkDir] }
      else s
    | .afterWipe =>
      { s with
          pc := .afterFlag
          running := false
          trace := s.trace ++ [.storeRunningFalse] }
    | .afterFlag =>
      { s with pc := .halted, doneClosed := true, trace := s.trace ++ [.closeDone] }
    | .halted => s

/-- Runs the sentinel machine under a schedule. -/
def sentinelRun (wipeErr : Option String) (workDir : String)
    (s : SentinelState) (sched : List LifeStep) : SentinelState :=
  sched.foldl (sentinelStep wipeErr workDir) s

/-- The state right after runJob spawns the sentinel: job running, no
trigger yet, done open. -/
def sentinelInit : SentinelState :=
  { closedCh := false, ctxDone := false, running := true, doneClosed := false,
    pc := .waiting, trace := [] }

/-- The trace the sentinel has produced when its program counter has
reached a given position on the successful-wipe path. -/
def sentinelTraceFor : SentinelPc → List SentinelEvent
  | .waiting => []
  | .afterWipe => [.removeWorkDir]
  | .afterFlag => [.removeWorkDir, .storeRunningFalse]
  | .halted => [.removeWorkDir, .storeRunningFalse, .closeDone]

/-- The running flag as a function of the sentinel's position on the
successful-wipe path. -/
def sentinelRunningFor : SentinelPc → Bool
  | .waiting => true
  | .afterWipe => true
  | .afterFlag => false
  | .halted => false

/-- Whether done has been closed, as a function of the sentinel's position
on the successful-wipe path. -/
def sentinelDoneFor : SentinelPc → Bool
  | .halted => true
  | _ => false

/-- Invariant of the sentinel machine when the wipe succeeds: trace,
running flag and done flag are determined by the program counter. -/
def sentinelInv (s : SentinelState) : Prop :=
  s.trace = sentinelTraceFor s.pc ∧ s.running = sentinelRunningFor s.pc ∧
    s.doneClosed = sentinelDoneFor s.pc

/-! ## Helper lemmas about the extractor -/

/-- Every effect of one entry writes at most tenMiB bytes: a directory
writes none, a regular file writes min of its size and the cap. -/
theorem entryActions_bytes (wd : String) (e : TarEntry) :
    ∀ a ∈ entryActions wd e, fsBytes a ≤ tenMiB := by
  intro a h
  cases htf : e.typeflag <;> simp [entryActions, htf] at h <;> subst h <;>
    simp [fsBytes]

/-- Every effect of an extraction, cancelled or not, writes at most tenMiB
bytes. -/
theorem extract_cap_helper (wd : String) (es : List TarEntry) :
    ∀ a ∈ writtenOf (extract wd es), fsBytes a ≤ tenMiB := by
  induction es with
  | nil => intro a h; simp [extract, writtenOf] at h
  | cons e rest ih =>
    intro a h
    cases hc : strStartsWith (goJoin wd e.name) (goClean wd) with
    | false => simp [extract, hc, writtenOf] at h
    | true =>
      simp only [extract, hc, if_true] at h
      cases hrec : extract wd rest with
      | ok w =>
        rw [hrec] at h
        simp only [writtenOf, List.mem_append] at h
        rcases h with h | h
        · exact entryActions_bytes wd e a h
        · exact ih a (by rw [hrec]; exact h)
      | cancelled w m =>
        rw [hrec] at h
        simp only [writtenOf, List.mem_append] at h
        rcases h with h | h
        · exact entryActions_bytes wd e a h
        · exact ih a (by rw [hrec]; exact h)

/-- When every entry of a prefix passes the HasPrefix check and the next
entry fails it, extraction of the whole archive performs exactly the
prefix's effects and is cancelled with the traversal message. -/
theorem extract_split (wd : String) (e : TarEntry) (post : List TarEntry)
    (he : strStartsWith (goJoin wd e.name) (goClean wd) = false) :
    ∀ pre : List TarEntry,
      (∀ p ∈ pre, strStartsWith (goJoin wd p.name) (goClean wd) = true) →
      ∃ w, extract wd pre = .ok w ∧
        extract wd (pre ++ e :: post) =
          .cancelled w "tar attempts to target relative upper directory" := by
  intro pre
  induction pre with
  | nil =>
    intro _
    exact ⟨[], rfl, by simp [extract, he]⟩
  | cons p ps ih =>
    intro hall
    obtain ⟨w, hok, hcan⟩ := ih (fun q hq => hall q (List.mem_cons_of_mem p hq))
    have hp := hall p (List.mem_cons_self p ps)
    refine ⟨entryActions wd p ++ w, ?_, ?_⟩
    · simp only [extract, hp, if_true, hok]
    · simp only [List.cons_append, extract, hp, if_true, List.append_eq, hcan]

/-! ## C1 -/

/-- C1: the claim asserts that extraction never creates a file outside the
work directory root.  This theorem evaluates the extractor at a failing
input: with work directory /tmp/coder/work, the entry ../work-evil/x
passes the strings.HasPrefix check — Join Cleans the candidate to
/tmp/coder/work-evil/x, which string-starts with /tmp/coder/work — so the
file is created although its path lies outside the work directory.  The
claim's second half does hold at this work directory: the entry
../../../etc/passwd is rejected and the job cancelled with no write. -/
theorem extract_sibling_escape :
    extract "/tmp/coder/work" [⟨"../work-evil/x", .reg, 0o600, 7⟩] =
      .ok [.writeFile "/tmp/coder/work-evil/x" 0o600 7] ∧
    pathLiesUnder "/tmp/coder/work" "/tmp/coder/work-evil/x" = false ∧
    extract "/tmp/coder/work" [⟨"../../../etc/passwd", .reg, 0o600, 7⟩] =
      .cancelled [] "tar attempts to target relative upper directory" := by
  refine ⟨by decide, by decide, by decide⟩

/-! ## C4 -/

/-- C4: for every tar entry the candidate path is
Clean(Join(workDir, name)); when the cleaned work directory is not a
string prefix of the candidate, extraction stops with the "relative upper
directory" message, the effects are exactly those of the entries before
the offending one (no file for it or any later entry), and the runner
turns the failure into a single CancelJob RPC. -/
theorem extract_traversal_rejected (wd : String) (pre : List TarEntry)
    (e : TarEntry) (post : List TarEntry)
    (hpre : ∀ p ∈ pre, strStartsWith (goJoin wd p.name) (goClean wd) = true)
    (he : strStartsWith (goJoin wd e.name) (goClean wd) = false) :
    ∃ w, extract wd pre = .ok w ∧
      extract wd (pre ++ e :: post) =
        .cancelled w "tar attempts to target relative upper directory" ∧
      ∀ (registry : List (String × ProvisionerStub)) (stub : ProvisionerStub)
        (job : AcquiredJob),
        lookupStub registry job.provisioner = some stub →
        job.projectSourceArchive = pre ++ e :: post →
        runJob registry wd job =
          (w, [.rpc (.cancelJob job.jobId
            "provisioner daemon: tar attempts to target relative upper directory")]) := by
  obtain ⟨w, hok, hcan⟩ := extract_split wd e post he pre hpre
  refine ⟨w, hok, hcan, ?_⟩
  intro registry stub job hreg harch
  simp only [runJob, hreg, harch, hcan, cancelErr]
  rfl

/-- Witness for C4 at a concrete archive: one good entry, then an entry
named ../../etc/passwd, then one more entry. -/
theorem extract_traversal_rejected_witness :
    ∃ w, extract "/work" [⟨"ok.txt", .reg, 0, 3⟩] = .ok w ∧
      extract "/work" ([⟨"ok.txt", .reg, 0, 3⟩] ++
          ⟨"../../etc/passwd", .reg, 0, 7⟩ :: [⟨"later.txt", .reg, 0, 1⟩]) =
        .cancelled w "tar attempts to target relative upper directory" ∧
      ∀ (registry : List (String × ProvisionerStub)) (stub : ProvisionerStub)
        (job : AcquiredJob),
        lookupStub registry job.provisioner = some stub →
        job.projectSourceArchive = [⟨"ok.txt", .reg, 0, 3⟩] ++
          ⟨"../../etc/passwd", .reg, 0, 7⟩ :: [⟨"later.txt", .reg, 0, 1⟩] →
        runJob registry "/work" job =
          (w, [.rpc (.cancelJob job.jobId
            "provisioner daemon: tar attempts to target relative upper directory")]) :=
  extract_traversal_rejected "/work" [⟨"ok.txt", .reg, 0, 3⟩]
    ⟨"../../etc/passwd", .reg, 0, 7⟩ [⟨"later.txt", .reg, 0, 1⟩]
    (by decide) (by decide)

/-! ## C5 -/

/-- C5 counterexample: an entry one byte over the cap is not a fatal job
error — io.CopyN stops at the cap and returns no error, so extraction
succeeds with the file silently truncated to exactly tenMiB bytes, where
the claim says the job is cancelled. -/
theorem extract_oversize_entry_not_fatal :
    extract "/work" [⟨"big.bin", .reg, 0o600, tenMiB + 1⟩] =
      .ok [.writeFile "/work/big.bin" 0o600 tenMiB] ∧
    isCancelledResult (extract "/work" [⟨"big.bin", .reg, 0o600, tenMiB + 1⟩]) =
      false := by
  refine ⟨by decide, by decide⟩

/-- C5 as amended: at most tenMiB bytes are written per tar entry, and
reaching end-of-file before the cap is not an error; but an entry whose
data exceeds the cap is not a fatal job error — its file is silently
truncated to exactly tenMiB bytes and extraction continues. -/
theorem extract_cap_ten_mib :
    (∀ (wd : String) (es : List TarEntry),
      ∀ a ∈ writtenOf (extract wd es), fsBytes a ≤ tenMiB) ∧
    (∀ (wd : String) (e : TarEntry), e.typeflag = .reg →
      strStartsWith (goJoin wd e.name) (goClean wd) = true →
      extract wd [e] =
        .ok [.writeFile (goJoin wd e.name) (entryDiskMode e) (min e.size tenMiB)]) := by
  constructor
  · exact extract_cap_helper
  · intro wd e htf hc
    simp [extract, hc, entryActions, htf]

/-! ## C6 -/

/-- C6 counterexample: a directory entry with recorded mode zero is not
created with mode 0600 — header.FileInfo().Mode() adds the ModeDir type
bit, so the computed mode is nonzero, the 0600 default is skipped, and
the directory reaches the kernel with permission bits 0. -/
theorem extract_zero_mode_dir_perm_zero :
    extract "/work" [⟨"sub", .dir, 0, 0⟩] = .ok [.mkdirAll "/work/sub" modeDir] ∧
    syscallPerm modeDir = 0 ∧ modeDir ≠ 0o600 := by
  refine ⟨by decide, by decide, by decide⟩

/-- Bounded computation behind C6, in chunks of 512 to keep the decision
procedure's recursion shallow: every nonzero recorded mode made of
permission, setuid, setgid and sticky bits round-trips unchanged through
FileInfo().Mode() and syscallMode, for regular-file and for directory
entries alike (the ModeDir type bit contributes nothing to syscallMode). -/
theorem fiMode_perm_keep :
    ∀ hi < 8, ∀ lo < 512, 0 < hi * 512 + lo →
      syscallPerm (if fiMode (hi * 512 + lo) TypeFlag.reg = 0 then 0o600
        else fiMode (hi * 512 + lo) TypeFlag.reg) = hi * 512 + lo ∧
      syscallPerm (if fiMode (hi * 512 + lo) TypeFlag.dir = 0 then 0o600
        else fiMode (hi * 512 + lo) TypeFlag.dir) = hi * 512 + lo := by
  decide

/-- The chunked computation of fiMode_perm_keep glued back together: for
every nonzero recorded mode below 0o10000 the on-disk permission equals
the recorded mode, whether the entry is a regular file or a directory. -/
theorem fiMode_perm_keep_all (m : Nat) (hm : m < 0o10000) (hpos : 0 < m) :
    syscallPerm (if fiMode m TypeFlag.reg = 0 then 0o600 else fiMode m TypeFlag.reg) = m ∧
    syscallPerm (if fiMode m TypeFlag.dir = 0 then 0o600 else fiMode m TypeFlag.dir) = m := by
  have hd : m / 512 < 8 := Nat.div_lt_of_lt_mul (by omega)
  have hl : m % 512 < 512 := Nat.mod_lt m (by omega)
  have h := fiMode_perm_keep (m / 512) hd (m % 512) hl
  have heq : m / 512 * 512 + m % 512 = m := by omega
  rw [heq] at h
  exact h hpos

/-- C6 as amended: a regular-file entry with recorded mode zero is created
with permission 0600, and every created entry — regular file or directory —
with a nonzero recorded mode (permission, setuid, setgid and sticky bits)
keeps that mode; but a directory entry with recorded mode zero is created
with permission 0, because FileInfo().Mode() includes the ModeDir type bit
and the computed mode is therefore nonzero, skipping the 0600 default. -/
theorem extract_mode_default (e : TarEntry) :
    (e.typeflag = .reg → e.mode = 0 → syscallPerm (entryDiskMode e) = 0o600) ∧
    (e.typeflag = .reg → 0 < e.mode → e.mode < 0o10000 →
      syscallPerm (entryDiskMode e) = e.mode) ∧
    (e.typeflag = .dir → 0 < e.mode → e.mode < 0o10000 →
      syscallPerm (entryDiskMode e) = e.mode) ∧
    (e.typeflag = .dir → e.mode = 0 → syscallPerm (entryDiskMode e) = 0) := by
  obtain ⟨n, tf, m, sz⟩ := e
  refine ⟨?_, ?_, ?_, ?_⟩
  · intro h1 h2
    simp only at h1 h2
    subst h1; subst h2
    show syscallPerm (if fiMode 0 TypeFlag.reg = 0 then 0o600 else fiMode 0 TypeFlag.reg) = 0o600
    decide
  · intro h1 h2 h3
    simp only at h1 ⊢
    subst h1
    have : entryDiskMode ⟨n, .reg, m, sz⟩ =
        if fiMode m TypeFlag.reg = 0 then 0o600 else fiMode m TypeFlag.reg := rfl
    rw [this]
    exact (fiMode_perm_keep_all m h3 h2).1
  · intro h1 h2 h3
    simp only at h1 ⊢
    subst h1
    have : entryDiskMode ⟨n, .dir, m, sz⟩ =
        if fiMode m TypeFlag.dir = 0 then 0o600 else fiMode m TypeFlag.dir := rfl
    rw [this]
    exact (fiMode_perm_keep_all m h3 h2).2
  · intro h1 h2
    simp only at h1 h2
    subst h1; subst h2
    show syscallPerm (if fiMode 0 TypeFlag.dir = 0 then 0o600 else fiMode 0 TypeFlag.dir) = 0
    decide

/-! ## C7 -/

/-- C7: a job whose provisioner kind is not in the registry is cancelled
immediately: the runner's whole trace is one CancelJob RPC carrying
"provisioner daemon: provisioner %q not registered" with the kind quoted,
no provisioner stream is opened, no CompleteJob is sent, and no file is
written. -/
theorem runJob_unregistered_cancel (registry : List (String × ProvisionerStub))
    (wd : String) (job : AcquiredJob)
    (h : lookupStub registry job.provisioner = none) :
    runJob registry wd job =
      ([], [.rpc (.cancelJob job.jobId
        (cancelErr ("provisioner " ++ goQuote job.provisioner ++ " not registered")))]) ∧
    (runJob registry wd job).2.countP isOpenEvent = 0 ∧
    (runJob registry wd job).2.countP isCompleteRpc = 0 := by
  have hstep : runJob registry wd job =
      ([], [.rpc (.cancelJob job.jobId
        (cancelErr ("provisioner " ++ goQuote job.provisioner ++ " not registered")))]) := by
    simp only [runJob, h]
  refine ⟨hstep, ?_, ?_⟩ <;> rw [hstep] <;>
    simp [List.countP_cons, List.countP_nil, isOpenEvent, isCompleteRpc]

/-- A provisioner stub with empty scripts. -/
def emptyStub : ProvisionerStub := ⟨[], []⟩

/-- A job asking for the unregistered provisioner kind "echo". -/
def echoJob : AcquiredJob := ⟨"job1", "echo", [⟨"main.tf", .reg, 0o644, 9⟩], .projectImport⟩

/-- Witness for C7: against a registry holding only "terraform", the job
asking for "echo" produces exactly one CancelJob with the formatted
message. -/
theorem runJob_unregistered_cancel_witness :
    runJob [("terraform", emptyStub)] "/work" echoJob =
      ([], [.rpc (.cancelJob "job1"
        "provisioner daemon: provisioner \"echo\" not registered")]) ∧
    (runJob [("terraform", emptyStub)] "/work" echoJob).2.countP isOpenEvent = 0 ∧
    (runJob [("terraform", emptyStub)] "/work" echoJob).2.countP isCompleteRpc = 0 := by
  have h := runJob_unregistered_cancel [("terraform", emptyStub)] "/work" echoJob (by decide)
  refine ⟨?_, h.2.1, h.2.2⟩
  rw [h.1]
  decide

/-! ## C2 -/

/-- C2: the claim asserts at most one terminal RPC per job.  The guard of
cancelActiveJob is an atomic Load of acquiredJobCancelled followed by a
separate atomic Store (provisionerd.go lines 440-443), not a
compare-and-swap, and the runner's error path and closeWithError call
cancelActiveJob with no common lock.  Under the schedule where both
executions pass the Load before either Stores — runner, runner, closer,
closer, closer, closer, runner, runner — both run to completion and two
CancelJob RPCs are sent for the same job. -/
theorem cancel_race_two_cancel_rpcs :
    (runRace "job1" [false, false, true, true, true, true, false, false] raceInit).sent =
      ["job1", "job1"] ∧
    (runRace "job1" [false, false, true, true, true, true, false, false] raceInit).pcA =
      .halted ∧
    (runRace "job1" [false, false, true, true, true, true, false, false] raceInit).pcB =
      .halted := by
  refine ⟨by decide, by decide, by decide⟩

/-! ## C3 -/

/-- C3 counterexample: when the work-directory wipe fails, the sentinel
calls cancelActiveJob and returns — running stays true and done is never
closed, although the daemon has closed. -/
theorem sentinel_wipe_failure_skips_done :
    (sentinelRun (some "permission denied") "/work" sentinelInit
      [.daemonClose, .sentinel, .sentinel, .sentinel]).trace =
      [.cancelActiveCall "remove all from \"/work\" directory: permission denied"] ∧
    (sentinelRun (some "permission denied") "/work" sentinelInit
      [.daemonClose, .sentinel, .sentinel, .sentinel]).doneClosed = false ∧
    (sentinelRun (some "permission denied") "/work" sentinelInit
      [.daemonClose, .sentinel, .sentinel, .sentinel]).running = true := by
  refine ⟨by decide, by decide, by decide⟩

/-- One step of the sentinel machine preserves the successful-wipe
invariant. -/
theorem sentinel_inv_step (wd : String) (s : SentinelState)
    (h : sentinelInv s) (t : LifeStep) : sentinelInv (sentinelStep none wd s t) := by
  obtain ⟨h1, h2, h3⟩ := h
  cases t with
  | daemonClose => exact ⟨h1, h2, h3⟩
  | jobCtxEnd => exact ⟨h1, h2, h3⟩
  | sentinel =>
    cases hpc : s.pc with
    | waiting =>
      cases htr : s.closedCh || s.ctxDone with
      | false =>
        simp only [sentinelStep, hpc, htr, if_false, Bool.false_eq_true]
        exact ⟨h1, h2, h3⟩
      | true =>
        simp [sentinelStep, hpc, htr, sentinelInv, sentinelTraceFor, sentinelRunningFor,
          sentinelDoneFor, h1, h2, h3]
    | afterWipe =>
      simp [sentinelStep, hpc, sentinelInv, sentinelTraceFor, sentinelRunningFor,
        sentinelDoneFor, h1, h2, h3]
    | afterFlag =>
      simp [sentinelStep, hpc, sentinelInv, sentinelTraceFor, sentinelRunningFor,
        sentinelDoneFor, h1, h2, h3]
    | halted =>
      simp only [sentinelStep, hpc]
      exact ⟨h1, h2, h3⟩

/-- The successful-wipe invariant holds after any schedule. -/
theorem sentinel_inv_run (wd : String) (sched : List LifeStep) :
    ∀ s : SentinelState, sentinelInv s → sentinelInv (sentinelRun none wd s sched) := by
  induction sched with
  | nil => intro s h; exact h
  | cons t ts ih =>
    intro s h
    exact ih (sentinelStep none wd s t) (sentinel_inv_step wd s h t)

/-- From any state satisfying the successful-wipe invariant, closing the
daemon and then scheduling the sentinel three times leaves the complete
trace: wipe, then running false, then done closed. -/
theorem sentinel_complete_from (wd : String) (F : SentinelState) (h : sentinelInv F) :
    (sentinelRun none wd F [.daemonClose, .sentinel, .sentinel, .sentinel]).trace =
      [.removeWorkDir, .storeRunningFalse, .closeDone] := by
  obtain ⟨h1, h2, h3⟩ := h
  cases hpc : F.pc with
  | waiting =>
    rw [hpc] at h1
    simp [sentinelRun, sentinelStep, hpc, h1, sentinelTraceFor]
  | afterWipe =>
    rw [hpc] at h1
    simp [sentinelRun, sentinelStep, hpc, h1, sentinelTraceFor]
  | afterFlag =>
    rw [hpc] at h1
    simp [sentinelRun, sentinelStep, hpc, h1, sentinelTraceFor]
  | halted =>
    rw [hpc] at h1
    simp [sentinelRun, sentinelStep, hpc, h1, sentinelTraceFor]

/-- C3 as amended: when the work-directory wipe succeeds, under every
interleaving of the triggers and the sentinel's steps the done channel is
closed at most once, and closing it happens only after the wipe and after
running became false, in that order; and once the daemon closes,
scheduling the sentinel completes the wipe-flag-close sequence exactly
once.  (The wipe-failure branch, shown by the counterexample, skips the
flag and the close.) -/
theorem sentinel_cleanup_once_ordered (wd : String) (sched : List LifeStep) :
    (sentinelRun none wd sentinelInit sched).trace.count .closeDone ≤ 1 ∧
    ((sentinelRun none wd sentinelInit sched).doneClosed = true →
      (sentinelRun none wd sentinelInit sched).trace =
        [.removeWorkDir, .storeRunningFalse, .closeDone] ∧
      (sentinelRun none wd sentinelInit sched).running = false) ∧
    (sentinelRun none wd sentinelInit
        (sched ++ [.daemonClose, .sentinel, .sentinel, .sentinel])).trace =
      [.removeWorkDir, .storeRunningFalse, .closeDone] := by
  obtain ⟨h1, h2, h3⟩ :=
    sentinel_inv_run wd sched sentinelInit ⟨rfl, rfl, rfl⟩
  refine ⟨?_, ?_, ?_⟩
  · rw [h1]
    cases (sentinelRun none wd sentinelInit sched).pc <;> decide
  · intro hd
    rw [h3] at hd
    cases hpc : (sentinelRun none wd sentinelInit sched).pc <;>
      rw [hpc] at hd h1 h2 <;> simp [sentinelDoneFor] at hd <;>
      exact ⟨by rw [h1]; rfl, by rw [h2]; rfl⟩
  · have happ : sentinelRun none wd sentinelInit
        (sched ++ [.daemonClose, .sentinel, .sentinel, .sentinel]) =
        sentinelRun none wd (sentinelRun none wd sentinelInit sched)
          [.daemonClose, .sentinel, .sentinel, .sentinel] := by
      simp [sentinelRun, List.foldl_append]
    rw [happ]
    exact sentinel_complete_from wd _ ⟨h1, h2, h3⟩

/-! ## C8 -/

/-- The empty AcquiredJob message the control plane answers with when no
job is available. -/
def emptyAcquire : AcquiredJob := ⟨"", "", [], .projectImport⟩

/-- C8 counterexample: an AcquireJob response with an empty JobId is not
free of state changes — the assignment at provisionerd.go line 158 stores
the response message into the acquiredJob slot before the JobId check, so
the daemon's fresh state (acquiredJob nil) changes. -/
theorem acquire_empty_overwrites_slot :
    emptyAcquire.jobId = "" ∧
    (acquireJob initState (.ok emptyAcquire)).1 ≠ initState ∧
    (acquireJob initState (.ok emptyAcquire)).1.acquiredJob ≠ initState.acquiredJob := by
  refine ⟨rfl, by decide, by decide⟩

/-- C8 as amended: on an empty-JobId response the only state change is the
acquiredJob field taking the response message; running, cancelled, the
cancel handle, the done channel are untouched, no runner is spawned, and
the state reached after the first such call is a fixed point of
arbitrarily many further empty responses. -/
theorem acquire_empty_frame (s : DaemonState) (j : AcquiredJob)
    (hrun : s.running = false) (hid : j.jobId = "") :
    acquireJob s (.ok j) = ({ s with acquiredJob := some j }, false) ∧
    ∀ n, 0 < n →
      (fun st => (acquireJob st (.ok j)).1)^[n] s = { s with acquiredJob := some j } := by
  have hstep : acquireJob s (.ok j) = ({ s with acquiredJob := some j }, false) := by
    cases hc : s.closed with
    | true => simp [acquireJob, hrun, hc]
    | false => simp [acquireJob, hrun, hc, hid]
  refine ⟨hstep, ?_⟩
  have hfix : (fun st => (acquireJob st (.ok j)).1) { s with acquiredJob := some j } =
      { s with acquiredJob := some j } := by
    cases hc : s.closed with
    | true => simp [acquireJob, hrun, hc]
    | false => simp [acquireJob, hrun, hc, hid]
  intro n hn
  cases n with
  | zero => omega
  | succ m =>
    rw [Function.iterate_succ_apply]
    simp only [hstep]
    exact Function.iterate_fixed hfix m

/-- Witness for C8's amended statement at the daemon's fresh state and
three consecutive empty responses. -/
theorem acquire_empty_frame_witness :
    acquireJob initState (.ok emptyAcquire) =
      ({ initState with acquiredJob := some emptyAcquire }, false) ∧
    (fun st => (acquireJob st (.ok emptyAcquire)).1)^[3] initState =
      { initState with acquiredJob := some emptyAcquire } := by
  have h := acquire_empty_frame initState emptyAcquire rfl rfl
  exact ⟨h.1, h.2 3 (by decide)⟩

/-! ## C9 -/

/-- closeWithError on an already-closed daemon returns the cached close
error, changes nothing and issues no RPC (provisionerd.go lines 479-481). -/
theorem close_noop_of_closed (t : DaemonState) (e2 : Option String)
    (h : t.closed = true) : closeWithError t e2 = (t, t.closeErr, []) := by
  simp [closeWithError, h]

/-- C9: Close is idempotent — the first closeWithError returns its error
argument and caches it, and a second call returns that same cached error,
leaves the state untouched and issues no further RPC (in particular no
additional CancelJob). -/
theorem close_idempotent (s : DaemonState) (e e2 : Option String)
    (h : s.closed = false) :
    (closeWithError s e).2.1 = e ∧
    (closeWithError s e).1.closeErr = e ∧
    closeWithError (closeWithError s e).1 e2 = ((closeWithError s e).1, e, []) := by
  have h1 : (closeWithError s e).2.1 = e := by simp [closeWithError, h]
  have hc : (closeWithError s e).1.closed = true := by simp [closeWithError, h]
  have he : (closeWithError s e).1.closeErr = e := by simp [closeWithError, h]
  refine ⟨h1, he, ?_⟩
  rw [close_noop_of_closed _ e2 hc, he]

/-- A daemon state with a job running: the acquired job installed, the
fresh cancel handle and done channel of its acquire. -/
def runningState : DaemonState :=
  { closed := false, closeErr := none, running := true, cancelled := false,
    acquiredJob := some echoJob, cancelGen := 1, doneGen := 1, doneClosed := false }

/-- Witness for C9 at a running daemon closed with an error: the second
call returns the same error with no state change and no RPC. -/
theorem close_idempotent_witness :
    (closeWithError runningState (some "connection lost")).2.1 = some "connection lost" ∧
    (closeWithError runningState (some "connection lost")).1.closeErr =
      some "connection lost" ∧
    closeWithError (closeWithError runningState (some "connection lost")).1 none =
      ((closeWithError runningState (some "connection lost")).1,
        some "connection lost", []) :=
  close_idempotent runningState (some "connection lost") none rfl

/-! ## C10 -/

/-- C10: a non-empty job acquired after the daemon has closed is silently
discarded: the response is stored in the slot but running never becomes
true, no runner is spawned, and cancelActiveJob on the resulting state is
a no-op — so neither CompleteJob (only a runner sends one) nor CancelJob
is ever issued for that job. -/
theorem acquire_after_close_discards (s : DaemonState) (j : AcquiredJob)
    (hc : s.closed = true) (hr : s.running = false) (_hj : j.jobId ≠ "") :
    acquireJob s (.ok j) = ({ s with acquiredJob := some j }, false) ∧
    (acquireJob s (.ok j)).1.running = false ∧
    (acquireJob s (.ok j)).2 = false ∧
    ∀ msg, cancelActive (acquireJob s (.ok j)).1 msg = ((acquireJob s (.ok j)).1, []) := by
  have hstep : acquireJob s (.ok j) = ({ s with acquiredJob := some j }, false) := by
    simp [acquireJob, hr, hc]
  refine ⟨hstep, by rw [hstep]; exact hr, by rw [hstep], ?_⟩
  intro msg
  rw [hstep]
  simp [cancelActive, hr]

/-- The daemon's state after Close when idle. -/
def closedState : DaemonState := { initState with closed := true }

/-- Witness for C10: a closed idle daemon receiving the non-empty job
"job1" stores it, stays not running, spawns nothing, and cancelActiveJob
stays a no-op. -/
theorem acquire_after_close_discards_witness :
    acquireJob closedState (.ok echoJob) =
      ({ closedState with acquiredJob := some echoJob }, false) ∧
    (acquireJob closedState (.ok echoJob)).1.running = false ∧
    (acquireJob closedState (.ok echoJob)).2 = false ∧
    ∀ msg, cancelActive (acquireJob closedState (.ok echoJob)).1 msg =
      ((acquireJob closedState (.ok echoJob)).1, []) :=
  acquire_after_close_discards closedState echoJob rfl rfl (by decide)

end Provisionerd


